import Mathlib

/-!
Verification of the variant-planning core of `src/lzma/setup.py`
(class `GNATCollLZMA`): configuration derivation (`update_config`)
and build-variant planning (`variants`).

The embedding models Python dictionaries as association lists,
byte strings as `List Nat`, the filesystem as a partial map from
path strings to file contents, and the in-place mutation of the
shared configuration object by explicit state passing: `update_config`
returns `Except` whose error case carries the state of the
configuration object at the moment the exception escapes.
-/

set_option autoImplicit false

namespace GNATCollLZMA

/-- A value stored in the configuration dictionary: Python strings,
byte strings (files are read in binary mode), lists of strings, and
nested dictionaries (used for the `gprbuild` variable sub-group). -/
inductive Value where
  | str : String → Value
  | bytes : List Nat → Value
  | strList : List String → Value
  | dict : List (String × Value) → Value
deriving Repr

/-- Dictionary lookup on an association list (Python `d[k]` made partial). -/
def lookupAssoc {α : Type} : List (String × α) → String → Option α
  | [], _ => none
  | (k', v) :: rest, k => if k' = k then some v else lookupAssoc rest k

/-- Dictionary assignment on an association list (Python `d[k] = v`):
replaces the binding in place if the key is present, appends otherwise. -/
def setAssoc {α : Type} : List (String × α) → String → α → List (String × α)
  | [], k, v => [(k, v)]
  | (k', v') :: rest, k, v =>
    if k' = k then (k, v) :: rest else (k', v') :: setAssoc rest k v

/-- The shared configuration object: its `source_dir` attribute and its
`data` dictionary. -/
structure Config where
  source_dir : String
  data : List (String × Value)
deriving Repr

/-- The command-line flags parsed by `create`: `--disable-shared` stores
`False` into `enable_shared` (default `True`); `--debug` stores `True`
into `debug` (default `False`). -/
structure Args where
  enable_shared : Bool
  debug : Bool
deriving Repr, DecidableEq

/-- Modelled from the spec: `BuildConfiguration` is "a mapping from
configuration keys to values"; `set_data` (defined in the repository's
`setup_support.py`, which is not among the given sources) stores `value`
under `key`, inside the nested dictionary named `sub` when `sub` is
given. -/
def set_data (config : Config) (key : String) (value : Value)
    (sub : Option String) : Config :=
  match sub with
  | none => { config with data := setAssoc config.data key value }
  | some s =>
    let subdict :=
      match lookupAssoc config.data s with
      | some (.dict d) => d
      | _ => []
    { config with data := setAssoc config.data s (.dict (setAssoc subdict key value)) }

/-- Python `s.startswith(sep)` for the one-character POSIX separator,
stated over the character list. -/
def startsWithSep (s : String) : Bool :=
  s.toList.head? = some '/'

/-- Python `s.endswith(sep)` for the one-character POSIX separator,
stated over the character list. -/
def endsWithSep (s : String) : Bool :=
  s.toList.getLast? = some '/'

/-- One step of POSIX `os.path.join`: an absolute component restarts the
path; otherwise the component is appended with a separator unless the
accumulated path is empty or already ends with one. -/
def joinComponent (path b : String) : String :=
  if startsWithSep b then b
  else if path = "" ∨ endsWithSep path then path ++ b
  else path ++ "/" ++ b

/-- POSIX `os.path.join(a, p...)`. -/
def osPathJoin (a : String) (ps : List String) : String :=
  ps.foldl joinComponent a

/-- ASCII whitespace bytes stripped by Python `bytes.strip()`:
space, tab, newline, carriage return, vertical tab, form feed. -/
def isWhitespaceByte (b : Nat) : Bool :=
  b = 32 ∨ b = 9 ∨ b = 10 ∨ b = 13 ∨ b = 11 ∨ b = 12

/-- Python `bytes.strip()`: drop leading and trailing ASCII whitespace. -/
def bytesStrip (bs : List Nat) : List Nat :=
  ((bs.dropWhile isWhitespaceByte).reverse.dropWhile isWhitespaceByte).reverse

/-- Encode a (ASCII) string literal as the byte string of its code points,
to write concrete file contents. -/
def strToBytes (s : String) : List Nat :=
  s.toList.map (fun c => c.toNat)

/-- The single I/O failure in this fragment: `open` on a missing file. -/
inductive FSError where
  | fileNotFoundError : String → FSError
deriving Repr, DecidableEq

/-- The filesystem: a partial map from path to file contents (bytes). -/
def FileSystem : Type := String → Option (List Nat)

/-- The path of the version file: `os.path.join(config.source_dir, '..',
'version_information')`. -/
def versionFilePath (config : Config) : String :=
  osPathJoin config.source_dir ["..", "version_information"]

/-- `GNATCollLZMA.update_config(config, args)`: sets `library_types` from
`args.enable_shared`, reads the `version_information` file one directory
above `config.source_dir` in binary mode and strips it, stores it as
`GNATCOLL_VERSION` in the `gprbuild` sub-dictionary, and sets `BUILD`
there from `args.debug`. A missing version file raises
`FileNotFoundError`; the error value carries the state of the mutated
`config` object at that point. -/
def update_config (fs : FileSystem) (config : Config) (args : Args) :
    Except (FSError × Config) Config :=
  let config := set_data config "library_types"
    (.strList (if args.enable_shared then ["static", "static-pic", "relocatable"]
               else ["static"])) none
  match fs (versionFilePath config) with
  | none => .error (.fileNotFoundError (versionFilePath config), config)
  | some contents =>
    let version := bytesStrip contents
    let config := set_data config "GNATCOLL_VERSION" (.bytes version) (some "gprbuild")
    let config := set_data config "BUILD"
      (.str (if args.debug then "DEBUG" else "PROD")) (some "gprbuild")
    .ok config

/-- A build variant: extra command-line arguments paired with the
`gpr_vars` variable map. -/
def Variant : Type := List String × List (String × String)

/-- `GNATCollLZMA.variants(config, cmd)`: one variant per entry of
`config.data['library_types']`, in order; `none` when that key is absent
or not a list of strings (Python would raise `KeyError` / iterate
something else). -/
def variants (config : Config) (cmd : String) : Option (List Variant) :=
  match lookupAssoc config.data "library_types" with
  | some (.strList library_types) =>
    some (library_types.map (fun library_type =>
      let gpr_vars := [("LIBRARY_TYPE", library_type), ("GPR_BUILD", library_type)]
      if cmd = "install" then
        (["--build-name=" ++ library_type, "--build-var=LIBRARY_TYPE"], gpr_vars)
      else
        ([], gpr_vars)))
  | _ => none

/-- The state of the configuration object after `update_config` ran,
whether it completed or escaped with an exception. -/
def finalConfig : Except (FSError × Config) Config → Config
  | .ok c => c
  | .error (_, c) => c

/-- Look up a variable of the `gprbuild` sub-dictionary. -/
def gprbuildVar (config : Config) (key : String) : Option Value :=
  match lookupAssoc config.data "gprbuild" with
  | some (.dict d) => lookupAssoc d key
  | _ => none

/-! ### Sample data used by witnesses and counterexamples -/

def sampleConfig : Config :=
  ⟨"/repo/lzma", [("library_types", Value.strList ["static", "static-pic", "relocatable"])]⟩

def baseConfig : Config := ⟨"/repo/lzma", []⟩

def sampleFS : FileSystem := fun p =>
  if p = "/repo/lzma/../version_information" then some (strToBytes "  1.2.3\n") else none

def configA : Config :=
  ⟨"/a", [("library_types", Value.strList ["static"]),
          ("gprbuild", Value.dict [("BUILD", Value.str "DEBUG")])]⟩

def configB : Config :=
  ⟨"/b", [("gprbuild", Value.dict [("BUILD", Value.str "PROD"),
                                   ("GNATCOLL_VERSION", Value.bytes (strToBytes "9.9"))]),
          ("library_types", Value.strList ["static"])]⟩

/-- The value stored into `library_types` by `update_config`. -/
def libraryTypesFor (args : Args) : Value :=
  Value.strList (if args.enable_shared then ["static", "static-pic", "relocatable"]
                 else ["static"])

/-- An empty filesystem: every `open` raises `FileNotFoundError`. -/
def emptyFS : FileSystem := fun _ => none

/-- The state of the shared config carried by the error when
`update_config` runs on `baseConfig` with shared libraries enabled and
no version file: `library_types` has already been written. -/
def erroredConfig : Config :=
  ⟨"/repo/lzma", [("library_types", Value.strList ["static", "static-pic", "relocatable"])]⟩

/-- The config produced by a successful run on `baseConfig` with shared
libraries enabled, debug off, and version file contents `"  1.2.3\n"`. -/
def prodConfigResult : Config :=
  ⟨"/repo/lzma", [("library_types", Value.strList ["static", "static-pic", "relocatable"]),
    ("gprbuild", Value.dict [("GNATCOLL_VERSION", Value.bytes (strToBytes "1.2.3")),
                             ("BUILD", Value.str "PROD")])]⟩

/-- A second filesystem with different version file contents, for the
determinism witness. -/
def sampleFS2 : FileSystem := fun p =>
  if p = "/other/src/../version_information" then some (strToBytes "2.0.0") else none

/-- A second base config with a different source dir and extra data. -/
def baseConfig2 : Config := ⟨"/other/src", [("extra", Value.str "x")]⟩

/-- The config produced by a successful run on `baseConfig2` with shared
libraries enabled, debug on, and version file contents `"2.0.0"`. -/
def debugConfigResult2 : Config :=
  ⟨"/other/src", [("extra", Value.str "x"),
    ("library_types", Value.strList ["static", "static-pic", "relocatable"]),
    ("gprbuild", Value.dict [("GNATCOLL_VERSION", Value.bytes (strToBytes "2.0.0")),
                             ("BUILD", Value.str "DEBUG")])]⟩

/-! ### Association list lemmas -/

theorem lookupAssoc_setAssoc_self {α : Type} (d : List (String × α)) (k : String) (v : α) :
    lookupAssoc (setAssoc d k v) k = some v := by
  induction d with
  | nil => simp [setAssoc, lookupAssoc]
  | cons p rest ih =>
    obtain ⟨k', v'⟩ := p
    by_cases h : k' = k <;> simp [setAssoc, lookupAssoc, h, ih]

theorem lookupAssoc_setAssoc_ne {α : Type} (d : List (String × α)) (k k' : String) (v : α)
    (h : k' ≠ k) : lookupAssoc (setAssoc d k' v) k = lookupAssoc d k := by
  induction d with
  | nil => simp [setAssoc, lookupAssoc, h]
  | cons p rest ih =>
    obtain ⟨k0, v0⟩ := p
    by_cases h0 : k0 = k' <;> simp [setAssoc, lookupAssoc, h0, h, ih]

theorem source_dir_set_data (config : Config) (key : String) (value : Value)
    (sub : Option String) : (set_data config key value sub).source_dir = config.source_dir := by
  cases sub <;> simp [set_data]

/-! ### Theorems about `variants` -/

theorem variants_eq (config : Config) (cmd : String) (lts : List String)
    (h : lookupAssoc config.data "library_types" = some (Value.strList lts)) :
    variants config cmd = some (lts.map (fun library_type =>
      if cmd = "install" then
        (["--build-name=" ++ library_type, "--build-var=LIBRARY_TYPE"],
         [("LIBRARY_TYPE", library_type), ("GPR_BUILD", library_type)])
      else ([], [("LIBRARY_TYPE", library_type), ("GPR_BUILD", library_type)]))) := by
  unfold variants
  rw [h]

/-- Claim C2: for every config whose `library_types` is populated and every
command kind, `variants` returns a sequence whose length equals the length
of `library_types`, and the i-th variant's variable map binds
`LIBRARY_TYPE` to the i-th entry of `library_types`, in order. -/
theorem variants_length_and_library_type (config : Config) (cmd : String)
    (lts : List String)
    (h : lookupAssoc config.data "library_types" = some (Value.strList lts)) :
    ∃ vs : List Variant, variants config cmd = some vs ∧
      vs.length = lts.length ∧
      ∀ i : Nat, vs[i]?.map (fun v => lookupAssoc v.2 "LIBRARY_TYPE") =
        lts[i]?.map (fun lt => some lt) := by
  refine ⟨_, variants_eq config cmd lts h, by simp, fun i => ?_⟩
  rw [List.getElem?_map]
  cases hval : lts[i]? with
  | none => rfl
  | some lt =>
    by_cases hc : cmd = "install" <;> simp [hc, lookupAssoc]

/-- Witness for C2 at a concrete config and a non-install command. -/
theorem variants_length_and_library_type_witness :
    ∃ vs : List Variant, variants sampleConfig "build" = some vs ∧
      vs.length = (["static", "static-pic", "relocatable"] : List String).length ∧
      ∀ i : Nat, vs[i]?.map (fun v => lookupAssoc v.2 "LIBRARY_TYPE") =
        (["static", "static-pic", "relocatable"] : List String)[i]?.map (fun lt => some lt) :=
  variants_length_and_library_type sampleConfig "build" _ rfl

/-- Claim C3: for the `install` command every variant carries exactly the
two arguments `--build-name=<kind>` and `--build-var=LIBRARY_TYPE`; for
every other command the argument list is empty. -/
theorem variants_install_args (config : Config) (cmd : String) (lts : List String)
    (h : lookupAssoc config.data "library_types" = some (Value.strList lts)) :
    ∃ vs : List Variant, variants config cmd = some vs ∧
      (cmd = "install" →
        ∀ i : Nat, vs[i]?.map (fun v => v.1) =
          lts[i]?.map (fun lt => ["--build-name=" ++ lt, "--build-var=LIBRARY_TYPE"])) ∧
      (cmd ≠ "install" → ∀ v ∈ vs, v.1 = ([] : List String)) := by
  refine ⟨_, variants_eq config cmd lts h, fun hc i => ?_, fun hc v hv => ?_⟩
  · rw [List.getElem?_map]
    cases hval : lts[i]? with
    | none => rfl
    | some lt => simp [hc]
  · rcases List.mem_map.mp hv with ⟨lt, _, rfl⟩
    simp [hc]

/-- Witness for C3 at a concrete config and the `install` command. -/
theorem variants_install_args_witness :
    ∃ vs : List Variant, variants sampleConfig "install" = some vs ∧
      ("install" = "install" →
        ∀ i : Nat, vs[i]?.map (fun v => v.1) =
          (["static", "static-pic", "relocatable"] :
            List String)[i]?.map (fun lt => ["--build-name=" ++ lt, "--build-var=LIBRARY_TYPE"])) ∧
      ("install" ≠ "install" → ∀ v ∈ vs, v.1 = ([] : List String)) :=
  variants_install_args sampleConfig "install" _ rfl

/-- Claim C8: given a well-formed config (`library_types` populated),
`variants` is total: it returns a result and cannot fail. -/
theorem variants_total (config : Config) (cmd : String) (lts : List String)
    (h : lookupAssoc config.data "library_types" = some (Value.strList lts)) :
    (variants config cmd).isSome = true := by
  rw [variants_eq config cmd lts h]
  rfl

/-- Witness for C8 at a concrete config. -/
theorem variants_total_witness : (variants sampleConfig "install").isSome = true :=
  variants_total sampleConfig "install" _ rfl

/-- Claim C9: for every command kind, the i-th variant's variable map is
exactly the two bindings `LIBRARY_TYPE` and `GPR_BUILD`, both mapped to
the i-th entry of `library_types`. -/
theorem variants_gpr_vars (config : Config) (cmd : String) (lts : List String)
    (h : lookupAssoc config.data "library_types" = some (Value.strList lts)) :
    ∃ vs : List Variant, variants config cmd = some vs ∧
      ∀ i : Nat, vs[i]?.map (fun v => v.2) =
        lts[i]?.map (fun lt => [("LIBRARY_TYPE", lt), ("GPR_BUILD", lt)]) := by
  refine ⟨_, variants_eq config cmd lts h, fun i => ?_⟩
  rw [List.getElem?_map]
  cases hval : lts[i]? with
  | none => rfl
  | some lt => by_cases hc : cmd = "install" <;> simp [hc]

/-- Witness for C9 at a concrete config. -/
theorem variants_gpr_vars_witness :
    ∃ vs : List Variant, variants sampleConfig "install" = some vs ∧
      ∀ i : Nat, vs[i]?.map (fun v => v.2) =
        (["static", "static-pic", "relocatable"] :
          List String)[i]?.map (fun lt => [("LIBRARY_TYPE", lt), ("GPR_BUILD", lt)]) :=
  variants_gpr_vars sampleConfig "install" _ rfl

/-- Claim C10: `variants` depends only on the `library_types` entry of the
config data and on the command: configs agreeing there give equal results. -/
theorem variants_noninterference (c1 c2 : Config) (cmd : String)
    (h : lookupAssoc c1.data "library_types" = lookupAssoc c2.data "library_types") :
    variants c1 cmd = variants c2 cmd := by
  unfold variants
  rw [h]

/-- Witness for C10: two configs differing in source dir, build mode and
version, agreeing on `library_types`, give the same variants. -/
theorem variants_noninterference_witness :
    variants configA "install" = variants configB "install" :=
  variants_noninterference configA configB "install" rfl

/-! ### Theorems about `update_config` -/

theorem versionFilePath_set_data (config : Config) (key : String) (value : Value)
    (sub : Option String) :
    versionFilePath (set_data config key value sub) = versionFilePath config := by
  unfold versionFilePath
  rw [source_dir_set_data]

theorem set_data_none_data (config : Config) (key : String) (value : Value) :
    (set_data config key value none).data = setAssoc config.data key value := rfl

theorem set_data_sub_data (config : Config) (key : String) (value : Value) (s : String) :
    (set_data config key value (some s)).data =
      setAssoc config.data s (Value.dict (setAssoc
        (match lookupAssoc config.data s with
         | some (Value.dict d) => d
         | _ => []) key value)) := rfl

theorem gprbuildVar_set_data_self (config : Config) (key : String) (value : Value) :
    gprbuildVar (set_data config key value (some "gprbuild")) key = some value := by
  unfold gprbuildVar
  rw [set_data_sub_data, lookupAssoc_setAssoc_self]
  exact lookupAssoc_setAssoc_self _ _ _

theorem gprbuildVar_set_data_ne (config : Config) (key key' : String) (value : Value)
    (h : key' ≠ key) :
    gprbuildVar (set_data config key' value (some "gprbuild")) key = gprbuildVar config key := by
  unfold gprbuildVar
  rw [set_data_sub_data, lookupAssoc_setAssoc_self]
  cases hd : lookupAssoc config.data "gprbuild" with
  | none =>
    simp only [hd]
    rw [lookupAssoc_setAssoc_ne _ _ _ _ h]
    rfl
  | some val =>
    cases val <;> simp only [hd] <;> rw [lookupAssoc_setAssoc_ne _ _ _ _ h] <;> rfl

theorem update_config_error_shape (fs : FileSystem) (config : Config) (args : Args)
    (hfs : fs (versionFilePath config) = none) :
    update_config fs config args =
      .error (.fileNotFoundError (versionFilePath config),
              set_data config "library_types" (libraryTypesFor args) none) := by
  unfold update_config libraryTypesFor
  simp only [versionFilePath_set_data, hfs]

theorem update_config_ok_shape (fs : FileSystem) (config : Config) (args : Args)
    (contents : List Nat) (hfs : fs (versionFilePath config) = some contents) :
    update_config fs config args =
      .ok (set_data
            (set_data (set_data config "library_types" (libraryTypesFor args) none)
              "GNATCOLL_VERSION" (.bytes (bytesStrip contents)) (some "gprbuild"))
            "BUILD" (.str (if args.debug then "DEBUG" else "PROD")) (some "gprbuild")) := by
  unfold update_config libraryTypesFor
  simp only [versionFilePath_set_data, hfs]

theorem libraryTypes_update_config (fs : FileSystem) (config : Config) (args : Args) :
    lookupAssoc (finalConfig (update_config fs config args)).data "library_types" =
      some (Value.strList (if args.enable_shared then ["static", "static-pic", "relocatable"]
                           else ["static"])) := by
  cases hfs : fs (versionFilePath config) with
  | none =>
    rw [update_config_error_shape fs config args hfs]
    unfold finalConfig libraryTypesFor
    rw [set_data_none_data]
    exact lookupAssoc_setAssoc_self _ _ _
  | some contents =>
    rw [update_config_ok_shape fs config args contents hfs]
    unfold finalConfig libraryTypesFor
    rw [set_data_sub_data, set_data_sub_data, set_data_none_data,
        lookupAssoc_setAssoc_ne _ _ _ _ (by decide),
        lookupAssoc_setAssoc_ne _ _ _ _ (by decide)]
    exact lookupAssoc_setAssoc_self _ _ _

/-- Claim C1: for every flags value, `update_config` sets `library_types`
to exactly `[static]` when shared libraries are disabled and to exactly
`[static, static-pic, relocatable]` in that fixed order otherwise; the
list is non-empty, duplicate-free, and its first element is `static`,
the default library kind. -/
theorem update_config_library_types (fs : FileSystem) (config : Config) (args : Args) :
    ∃ lts : List String,
      lookupAssoc (finalConfig (update_config fs config args)).data "library_types" =
        some (Value.strList lts) ∧
      lts = (if args.enable_shared then ["static", "static-pic", "relocatable"]
             else ["static"]) ∧
      lts ≠ [] ∧ lts.Nodup ∧ lts.head? = some "static" := by
  refine ⟨_, libraryTypes_update_config fs config args, rfl, ?_, ?_, ?_⟩ <;>
    cases args.enable_shared <;> simp

/-- Claim C7: two runs of `update_config` whose flags agree on
`enable_shared` — whatever the debug flag, the base configs or the
filesystem contents — produce equal `library_types`. -/
theorem update_config_library_types_deterministic
    (fs1 fs2 : FileSystem) (c1 c2 : Config) (a1 a2 : Args) (r1 r2 : Config)
    (h1 : update_config fs1 c1 a1 = .ok r1) (h2 : update_config fs2 c2 a2 = .ok r2)
    (hsh : a1.enable_shared = a2.enable_shared) :
    lookupAssoc r1.data "library_types" = lookupAssoc r2.data "library_types" := by
  have e1 := libraryTypes_update_config fs1 c1 a1
  have e2 := libraryTypes_update_config fs2 c2 a2
  rw [h1] at e1
  rw [h2] at e2
  unfold finalConfig at e1 e2
  rw [e1, e2, hsh]

/-- Claim C6: `update_config` sets the `BUILD` variable of the `gprbuild`
group to `DEBUG` when the debug flag is set and to `PROD` otherwise. -/
theorem update_config_build_mode (fs : FileSystem) (config : Config) (args : Args)
    (c : Config) (h : update_config fs config args = .ok c) :
    gprbuildVar c "BUILD" = some (Value.str (if args.debug then "DEBUG" else "PROD")) := by
  cases hfs : fs (versionFilePath config) with
  | none =>
    rw [update_config_error_shape fs config args hfs] at h
    exact absurd h (by simp)
  | some contents =>
    rw [update_config_ok_shape fs config args contents hfs] at h
    injection h with h
    subst h
    exact gprbuildVar_set_data_self _ _ _

/-! ### Error path (C4) -/

/-- Claim C4 (amended): a missing version file makes `update_config` fail
with a `FileNotFoundError`-kind error that is propagated, and no
configuration is returned; however the shared config object has already
had `library_types` set before the failure, so the base config is not
left unmodified on the error path. -/
theorem update_config_missing_file_error (fs : FileSystem) (config : Config) (args : Args)
    (hfs : fs (versionFilePath config) = none) :
    ∃ c : Config,
      update_config fs config args =
        .error (.fileNotFoundError (versionFilePath config), c) ∧
      (∀ r : Config, update_config fs config args ≠ .ok r) ∧
      lookupAssoc c.data "library_types" = some (libraryTypesFor args) := by
  refine ⟨_, update_config_error_shape fs config args hfs, fun r hr => ?_, ?_⟩
  · rw [update_config_error_shape fs config args hfs] at hr
    exact absurd hr (by simp)
  · rw [set_data_none_data]
    exact lookupAssoc_setAssoc_self _ _ _

/-- Witness for the amended C4 at a concrete config and empty filesystem. -/
theorem update_config_missing_file_error_witness :
    ∃ c : Config,
      update_config emptyFS baseConfig ⟨true, false⟩ =
        .error (.fileNotFoundError (versionFilePath baseConfig), c) ∧
      (∀ r : Config, update_config emptyFS baseConfig ⟨true, false⟩ ≠ .ok r) ∧
      lookupAssoc c.data "library_types" = some (libraryTypesFor ⟨true, false⟩) :=
  update_config_missing_file_error emptyFS baseConfig ⟨true, false⟩ rfl

/-- Counterexample to claim C4 as stated: on a missing version file the
error is raised and propagated, but the base config is not left
unmodified on the error path — at the moment the exception escapes, the
shared config already differs from the base config because
`library_types` was set first. -/
theorem update_config_error_path_modified :
    update_config emptyFS baseConfig ⟨true, false⟩ =
      .error (.fileNotFoundError "/repo/lzma/../version_information", erroredConfig) ∧
    erroredConfig ≠ baseConfig := by
  refine ⟨rfl, fun h => ?_⟩
  have hdata := congrArg Config.data h
  simp only [erroredConfig, baseConfig] at hdata
  exact List.cons_ne_nil _ _ hdata

/-! ### Version variable (C5) -/

/-- Claim C5 (amended): `update_config` reads the file named
`version_information` one directory above the configured source directory
as raw bytes, strips leading and trailing whitespace, and stores the
resulting byte string under the `GNATCOLL_VERSION` variable (not
`VERSION`) of the `gprbuild` group. -/
theorem update_config_version (fs : FileSystem) (config : Config) (args : Args)
    (contents : List Nat) (c : Config)
    (hfs : fs (versionFilePath config) = some contents)
    (h : update_config fs config args = .ok c) :
    gprbuildVar c "GNATCOLL_VERSION" = some (Value.bytes (bytesStrip contents)) := by
  rw [update_config_ok_shape fs config args contents hfs] at h
  injection h with h
  subst h
  rw [gprbuildVar_set_data_ne _ _ _ _ (by decide)]
  exact gprbuildVar_set_data_self _ _ _

/-- Witness for the amended C5: file contents `"  1.2.3\n"` yield exactly
the bytes of `"1.2.3"` under `GNATCOLL_VERSION`. -/
theorem update_config_version_witness :
    sampleFS (versionFilePath baseConfig) = some (strToBytes "  1.2.3\n") ∧
    gprbuildVar prodConfigResult "GNATCOLL_VERSION" =
      some (Value.bytes (bytesStrip (strToBytes "  1.2.3\n"))) ∧
    bytesStrip (strToBytes "  1.2.3\n") = strToBytes "1.2.3" :=
  ⟨rfl,
   update_config_version sampleFS baseConfig ⟨true, false⟩ _ prodConfigResult rfl rfl,
   rfl⟩

/-- Counterexample to claim C5 as stated: after a successful run on file
contents `"  1.2.3\n"`, the `gprbuild` group binds no `VERSION` variable
at all; the trimmed value is stored under `GNATCOLL_VERSION`. -/
theorem update_config_no_version_variable :
    update_config sampleFS baseConfig ⟨true, false⟩ = .ok prodConfigResult ∧
    gprbuildVar prodConfigResult "VERSION" = none ∧
    gprbuildVar prodConfigResult "GNATCOLL_VERSION" =
      some (Value.bytes (strToBytes "1.2.3")) :=
  ⟨rfl, rfl, rfl⟩

/-! ### Remaining witnesses for `update_config` claims -/

/-- Witness for C6: debug mode on, concrete run, `BUILD = DEBUG`. -/
theorem update_config_build_mode_witness :
    update_config sampleFS baseConfig ⟨true, true⟩ =
      .ok ⟨"/repo/lzma",
           [("library_types", Value.strList ["static", "static-pic", "relocatable"]),
            ("gprbuild", Value.dict [("GNATCOLL_VERSION", Value.bytes (strToBytes "1.2.3")),
                                     ("BUILD", Value.str "DEBUG")])]⟩ ∧
    gprbuildVar ⟨"/repo/lzma",
           [("library_types", Value.strList ["static", "static-pic", "relocatable"]),
            ("gprbuild", Value.dict [("GNATCOLL_VERSION", Value.bytes (strToBytes "1.2.3")),
                                     ("BUILD", Value.str "DEBUG")])]⟩ "BUILD" =
      some (Value.str "DEBUG") :=
  ⟨rfl, update_config_build_mode sampleFS baseConfig ⟨true, true⟩ _ rfl⟩

/-- Witness for C7: two runs differing in base config, debug flag and
version file contents, agreeing on `enable_shared`, produce equal
`library_types`. -/
theorem update_config_library_types_deterministic_witness :
    lookupAssoc prodConfigResult.data "library_types" =
      lookupAssoc debugConfigResult2.data "library_types" :=
  update_config_library_types_deterministic sampleFS sampleFS2 baseConfig baseConfig2
    ⟨true, false⟩ ⟨true, true⟩ prodConfigResult debugConfigResult2 rfl rfl rfl

end GNATCollLZMA
